import Mathlib

/-!
Shallow embedding of `src/ai_generation_detector.py`, the single-file FastAPI
relay around the NVIDIA AI-generated-image detection endpoint.

Modelling conventions:
* Python floats are modelled as exact rationals (`ℚ`); `round(x, n)` is
  modelled as round-half-to-even on the exact value (Python's documented
  rounding rule for `round`).
* The three network interactions (asset reservation `POST`, asset transfer
  `PUT`, scoring `POST`) are modelled by an `Env` record of externally
  determined outcomes, and the flow counts how many of each call it performs.
* A raised exception is modelled as an `Except.error` carrying a tag naming
  the raise site; the top-level `except Exception` block of the handler
  (lines 197-199) is modelled by `detectHandler`, which maps every error to
  an HTTP 500 response whose detail is the stringified exception, exactly as
  `raise HTTPException(status_code=500, detail=str(e))` does.
* The base64 encoding step itself is not modelled: the flow receives the
  already-encoded string `image_b64`, whose length is what the code branches
  on (line 124).
-/

/-- Round-half-to-even of a rational to an integer: the rule Python's `round`
applies to the exact value of its argument. -/
def roundHalfEven (x : ℚ) : ℤ :=
  let n := ⌊x⌋
  let frac := x - n
  if frac < 1/2 then n
  else if 1/2 < frac then n + 1
  else if n % 2 = 0 then n else n + 1

/-- Model of Python `round(x, ndigits)` on an exact rational value. -/
def pyRound (x : ℚ) (ndigits : ℕ) : ℚ :=
  (roundHalfEven (x * 10 ^ ndigits) : ℚ) / 10 ^ ndigits

/-- The comparison used at line 163-164: sort key is the weight (second
component), in `reverse=True` (descending) order. `wtGE a b` means `a` may
come before `b`. -/
def wtGE (a b : String × ℚ) : Prop := b.2 ≤ a.2

instance : DecidableRel wtGE := fun a b => inferInstanceAs (Decidable (b.2 ≤ a.2))

instance : IsTotal (String × ℚ) wtGE := ⟨fun a b => le_total b.2 a.2⟩

instance : IsTrans (String × ℚ) wtGE := ⟨fun _ _ _ h1 h2 => le_trans h2 h1⟩

/-- Model of `sorted(possible_sources.items(), key=lambda x: x[1], reverse=True)`
(lines 161-165). Python's `sorted` is a stable sort and with `reverse=True`
equal keys keep their original order, so any stable sort by the same key is
extensionally equal to it; we use insertion sort, which is stable. The
`items()` enumeration of the (insertion-ordered) Python dict is modelled by
the input association list. -/
def sortSources (ps : List (String × ℚ)) : List (String × ℚ) :=
  ps.insertionSort wtGE

/-- Model of `top_sources = sorted(...)[:3]` (lines 161-165). -/
def top_sources (ps : List (String × ℚ)) : List (String × ℚ) :=
  (sortSources ps).take 3

/-- One element of the `data` list of the vendor response body; the two
fields read at lines 157-158, each possibly absent. -/
structure DetectionData where
  is_ai_generated : Option ℚ
  possible_sources : Option (List (String × ℚ))
deriving DecidableEq

/-- The vendor response body as read by the handler: the top-level `data`
key, possibly absent, holding a list of detection entries. -/
structure ApiResult where
  data : Option (List DetectionData)
deriving DecidableEq

/-- The success payload returned at lines 174-184 (the purely string-typed
`message`/`sources_message` fields are omitted; no claim concerns them). -/
structure Verdict where
  filename : String
  is_ai_generated : Bool
  confidence : ℚ
  confidence_score : ℚ
  threshold : ℚ
  top_sources : List (String × ℚ)
deriving DecidableEq

deriving instance DecidableEq for Except

/-- Tags for every raise site of the flow. The `msg` arguments carry the
`str(...)` of the underlying `requests`/json exception, which is determined
by the environment, not by this code. -/
inductive DetectError where
  | badThreshold
  | badExtension
  | noApiKey
  | uploadReserveFailed (msg : String)
  | uploadTransferFailed (msg : String)
  | scoringTransportFailed (msg : String)
  | scoringStatusFailed (status : ℕ) (msg : String)
  | scoringBadJson (msg : String)
  | schemaMissing
deriving DecidableEq

/-- How many network requests the flow has issued: the reservation `POST`,
the transfer `PUT` (both inside `upload_asset`) and the scoring `POST`. -/
structure Calls where
  reserveCalls : ℕ
  transferCalls : ℕ
  scoringCalls : ℕ
deriving DecidableEq

def Calls.total (c : Calls) : ℕ := c.reserveCalls + c.transferCalls + c.scoringCalls

def Calls.addScoring (c : Calls) : Calls :=
  { c with scoringCalls := c.scoringCalls + 1 }

/-- Outcome of the scoring `POST` once a response arrived: HTTP status, the
message `raise_for_status()` would raise for a non-success status, and the
parsed body (`.error` = `response.json()` raised, with its message). -/
structure ScoringResp where
  status : ℕ
  statusMsg : String
  body : Except String ApiResult
deriving DecidableEq

/-- Externally determined outcomes of the three network interactions plus
whether the `NVIDIA_API_KEY` environment variable is set (line 113).
`reserve` yields the pre-signed upload URL and the asset id on success. -/
structure Env where
  apiKeySet : Bool
  reserve : Except String (String × String)
  transfer : Except String Unit
  scoring : Except String ScoringResp
deriving DecidableEq

/-- Model of `detection_data.get('is_ai_generated', 0)` (line 157). -/
def extract_score (d : DetectionData) : ℚ := d.is_ai_generated.getD 0

/-- Model of `detection_data.get('possible_sources', {})` (line 158). -/
def extract_sources (d : DetectionData) : List (String × ℚ) :=
  d.possible_sources.getD []

/-- Model of the result-normalisation step, lines 155-189: if the `data` key
is present and the list non-empty, build the success payload from its first
element (defaulting absent fields); otherwise raise the
"Invalid response format" `HTTPException` (line 186), tagged `schemaMissing`. -/
def normalizeResult (filename : String) (threshold : ℚ) (r : ApiResult) :
    Except DetectError Verdict :=
  match r.data with
  | some (d :: _) =>
    let score := extract_score d
    .ok { filename := filename
        , is_ai_generated := decide (score > threshold)
        , confidence := pyRound (score * 100) 2
        , confidence_score := pyRound score 3
        , threshold := threshold
        , top_sources := top_sources (extract_sources d) }
  | _ => .error .schemaMissing

/-- Last index at which `c` occurs in `l`, or `none`: Python `str.rfind`. -/
def lastIdxFrom (c : Char) : List Char → ℕ → Option ℕ → Option ℕ
  | [], _, best => best
  | x :: xs, i, best => lastIdxFrom c xs (i + 1) (if x = c then some i else best)

def lastIdx (c : Char) (l : List Char) : Option ℕ := lastIdxFrom c l 0 none

/-- Model of the extension component of `os.path.splitext` (posixpath): the
suffix from the last dot, provided that dot lies after the last `/` and the
basename has at least one non-dot character before it (so a leading-dot name
such as `.jpg` has no extension). -/
def splitextExt (p : List Char) : List Char :=
  let sepIdx : ℤ := match lastIdx '/' p with
    | some i => (i : ℤ)
    | none => -1
  match lastIdx '.' p with
  | none => []
  | some d =>
    if sepIdx < (d : ℤ) ∧ ((p.take d).drop (sepIdx + 1).toNat).any (fun ch => ch != '.')
    then p.drop d
    else []

/-- Model of `os.path.splitext(file.filename)[1].lower()` (line 88); ASCII
lowering, which is faithful on every extension the allow-list can match. -/
def file_ext (filename : String) : String :=
  String.mk ((splitextExt filename.data).map Char.toLower)

/-- The allow-list of line 89. -/
def allowedExts : List String := [".jpg", ".jpeg", ".png"]

/-- Model of the threshold validation `0 <= threshold <= 1` (line 81). -/
def thresholdOk (t : ℚ) : Bool := decide (0 ≤ t) && decide (t ≤ 1)

/-- Model of the extension validation (lines 88-89). -/
def extOk (filename : String) : Bool := allowedExts.contains (file_ext filename)

/-- The threshold default of the route signature (line 74). -/
def defaultThreshold : ℚ := 16 / 1000

/-- Model of the mime-type derivation (line 104). -/
def mimeOf (ext : String) : String :=
  if ext = ".jpg" ∨ ext = ".jpeg" then "image/jpeg" else "image/png"

/-- The two payload-submission strategies of lines 124-144. -/
inductive Strategy where
  | inlineB64
  | assetUpload
deriving DecidableEq

/-- Model of the branch condition at line 124: the strategy is a function of
the base64-encoded length alone. -/
def chooseStrategy (b64len : ℕ) : Strategy :=
  if b64len < 180000 then .inlineB64 else .assetUpload

/-- The scoring request as constructed at lines 126-144: the single `input`
body entry, and the `NVCF-INPUT-ASSET-REFERENCES` header when present. -/
structure ScoringRequest where
  body : String
  assetHeader : Option String
deriving DecidableEq

/-- Model of `upload_asset` (lines 38-69): reservation `POST` (+
`raise_for_status`), then transfer `PUT` (+ `raise_for_status`); returns the
asset id. Any phase failure propagates as the corresponding `requests`
exception. The number of issued calls is returned alongside. -/
def upload_asset (env : Env) : Except DetectError String × Calls :=
  match env.reserve with
  | .error m => (.error (.uploadReserveFailed m), ⟨1, 0, 0⟩)
  | .ok (_url, assetId) =>
    match env.transfer with
    | .error m => (.error (.uploadTransferFailed m), ⟨1, 1, 0⟩)
    | .ok _ => (.ok assetId, ⟨1, 1, 0⟩)

/-- Model of the payload/header construction, lines 124-144: inline data-URI
below the size threshold, otherwise `upload_asset` first and an
asset-reference body plus companion header. -/
def buildRequest (mime : String) (image_b64 : String) (env : Env) :
    Except DetectError ScoringRequest × Calls :=
  match chooseStrategy image_b64.length with
  | .inlineB64 =>
    (.ok ⟨"data:" ++ mime ++ ";base64," ++ image_b64, none⟩, ⟨0, 0, 0⟩)
  | .assetUpload =>
    match upload_asset env with
    | (.error e, c) => (.error e, c)
    | (.ok assetId, c) =>
      (.ok ⟨"data:" ++ mime ++ ";asset_id," ++ assetId, some assetId⟩, c)

/-- Model of the body of `detect_deepfake` (lines 71-195) before the outer
`except` block: validation, API-key check, request construction, scoring
call, `raise_for_status`, body parse, normalisation. Returns the outcome
together with the number of network calls issued. -/
def detect_deepfake (env : Env) (filename : String) (threshold : ℚ)
    (image_b64 : String) : Except DetectError Verdict × Calls :=
  if thresholdOk threshold then
    if extOk filename then
      if env.apiKeySet then
        match buildRequest (mimeOf (file_ext filename)) image_b64 env with
        | (.error e, c) => (.error e, c)
        | (.ok _req, c) =>
          match env.scoring with
          | .error m => (.error (.scoringTransportFailed m), c.addScoring)
          | .ok resp =>
            if 400 ≤ resp.status then
              (.error (.scoringStatusFailed resp.status resp.statusMsg), c.addScoring)
            else
              match resp.body with
              | .error m => (.error (.scoringBadJson m), c.addScoring)
              | .ok r =>
                match normalizeResult filename threshold r with
                | .ok v => (.ok v, c.addScoring)
                | .error e => (.error e, c.addScoring)
      else (.error .noApiKey, ⟨0, 0, 0⟩)
    else (.error .badExtension, ⟨0, 0, 0⟩)
  else (.error .badThreshold, ⟨0, 0, 0⟩)

/-- `str(e)` of the exception each raise site produces. For an
`HTTPException`, starlette renders `f"{status_code}: {detail}"`; for
`requests`/json exceptions it is the environment-supplied message. -/
def strOfError : DetectError → String
  | .badThreshold => "400: Threshold must be between 0 and 1"
  | .badExtension => "400: Invalid file type. Only jpg, jpeg, and png are supported."
  | .noApiKey => "500: Server configuration error: NVIDIA API key not set"
  | .uploadReserveFailed m => m
  | .uploadTransferFailed m => m
  | .scoringTransportFailed m => m
  | .scoringStatusFailed _ m => m
  | .scoringBadJson m => m
  | .schemaMissing => "500: Invalid response format from NVIDIA API"

/-- Model of the whole route including the catch-all `except Exception`
block (lines 197-199): any exception raised inside—`HTTPException`s from
validation included—is re-raised as `HTTPException(status_code=500,
detail=str(e))`, so the caller sees status 500 with the stringified
exception as detail. -/
def detectHandler (env : Env) (filename : String) (threshold : ℚ)
    (image_b64 : String) : Except (ℕ × String) Verdict :=
  match (detect_deepfake env filename threshold image_b64).1 with
  | .ok v => .ok v
  | .error e => .error (500, strOfError e)

/-! ### Concrete environments and payloads used by witnesses -/

/-- An environment where every external interaction succeeds and the vendor
returns a well-formed body with score 0. -/
def envIdle : Env :=
  ⟨true, .ok ("u", "AID"), .ok (), .ok ⟨200, "", .ok ⟨some [⟨some 0, none⟩]⟩⟩⟩

/-- Environment whose asset-reservation `POST` fails. -/
def envReserveBoom : Env :=
  ⟨true, .error "boom", .ok (), .ok ⟨200, "", .ok ⟨some [⟨some 0, none⟩]⟩⟩⟩

/-- Environment whose asset-transfer `PUT` fails. -/
def envTransferBoom : Env :=
  ⟨true, .ok ("u", "AID"), .error "boom", .ok ⟨200, "", .ok ⟨some [⟨some 0, none⟩]⟩⟩⟩

/-- Environment whose scoring `POST` fails at the transport level. -/
def envScoringBoom : Env :=
  ⟨true, .ok ("u", "AID"), .ok (), .error "boom"⟩

/-- A base64 payload of exactly the 180,000-character size threshold. -/
def bigB64 : String := String.mk (List.replicate 180000 'a')

theorem bigB64_length : bigB64.length = 180000 := by
  show (List.replicate 180000 'a').length = 180000
  rw [List.length_replicate]

/-! ### Small helper lemmas -/

theorem pyRound_zero (n : ℕ) : pyRound 0 n = 0 := by
  simp [pyRound, roundHalfEven]

/-- `buildRequest` can only fail with one of the two upload-phase errors. -/
theorem buildRequest_error_kinds (mime b64 : String) (env : Env)
    (e : DetectError) (c : Calls) (h : buildRequest mime b64 env = (.error e, c)) :
    (∃ m, e = .uploadReserveFailed m) ∨ ∃ m, e = .uploadTransferFailed m := by
  unfold buildRequest upload_asset at h
  rcases hs : chooseStrategy b64.length with _ | _ <;> rw [hs] at h <;> simp at h
  rcases hr : env.reserve with m | ⟨url, aid⟩ <;> rw [hr] at h <;> simp at h
  · exact Or.inl ⟨m, h.1.symm⟩
  · rcases ht : env.transfer with m | u <;> rw [ht] at h <;> simp at h
    exact Or.inr ⟨m, h.1.symm⟩

/-- The normaliser can only fail with the schema error. -/
theorem normalizeResult_error_kind (f : String) (t : ℚ) (r : ApiResult)
    (e : DetectError) (h : normalizeResult f t r = .error e) :
    e = .schemaMissing := by
  unfold normalizeResult at h
  rcases r with ⟨_ | ⟨_ | ⟨d, rest⟩⟩⟩ <;> simp_all

/-- Inserting `p` with `orderedInsert wtGE` preserves the order of entries of
any single weight `w`: `p` ends up before every later entry of its own
weight and the relative order of the existing entries is unchanged. -/
theorem orderedInsert_filter_weight (p : String × ℚ) (l : List (String × ℚ)) (w : ℚ) :
    (l.orderedInsert wtGE p).filter (fun q => decide (q.2 = w)) =
      if p.2 = w then p :: l.filter (fun q => decide (q.2 = w))
      else l.filter (fun q => decide (q.2 = w)) := by
  induction l with
  | nil =>
    by_cases hw : p.2 = w <;> simp [List.orderedInsert, hw]
  | cons b l ih =>
    by_cases hpb : wtGE p b
    · by_cases hw : p.2 = w <;> simp [List.orderedInsert, hpb, List.filter_cons, hw]
    · have hlt : p.2 < b.2 := lt_of_not_le (by simpa [wtGE] using hpb)
      by_cases hw : p.2 = w
      · have hbw : b.2 ≠ w := ne_of_gt (hw ▸ hlt)
        simp [List.orderedInsert, hpb, List.filter_cons, hbw, ih, hw]
      · by_cases hbw : b.2 = w <;>
          simp [List.orderedInsert, hpb, List.filter_cons, hbw, ih, hw]

/-- Stability of the sort used for `top_sources`: the entries carrying any
single weight `w` appear in `sortSources ps` in exactly their original
(insertion/enumeration) order. -/
theorem sortSources_filter_weight (ps : List (String × ℚ)) (w : ℚ) :
    (sortSources ps).filter (fun q => decide (q.2 = w)) =
      ps.filter (fun q => decide (q.2 = w)) := by
  induction ps with
  | nil => rfl
  | cons p l ih =>
    show ((l.insertionSort wtGE).orderedInsert wtGE p).filter _ = _
    rw [orderedInsert_filter_weight]
    by_cases hw : p.2 = w <;> simp [List.filter_cons, hw] <;> exact ih

/-- If the threshold validation of line 81 passes, the flow can never raise
the threshold `HTTPException`. -/
theorem detect_ne_badThreshold (env : Env) (f : String) (t : ℚ) (b : String)
    (h : thresholdOk t = true) :
    (detect_deepfake env f t b).1 ≠ Except.error DetectError.badThreshold := by
  unfold detect_deepfake
  rw [h]
  simp only [if_true]
  split
  · split
    · split
      · rename_i e c heq
        rcases buildRequest_error_kinds _ _ _ _ _ heq with ⟨m, rfl⟩ | ⟨m, rfl⟩ <;> simp
      · split
        · simp
        · split
          · simp
          · split
            · simp
            · split
              · simp
              · rename_i heq
                rw [normalizeResult_error_kind _ _ _ _ heq]
                simp
    · simp
  · simp

/-! ### Claim theorems -/

/-- C1: for every vendor response containing a score and every threshold in
[0,1], the returned `is_ai_generated` flag is true exactly when
`score > threshold` (strict); at `score = threshold` the image is not
flagged. -/
theorem C1_verdict_strict_inequality (f : String) (t score : ℚ)
    (d : DetectionData) (rest : List DetectionData)
    (_ht0 : 0 ≤ t) (_ht1 : t ≤ 1) (hs : d.is_ai_generated = some score) :
    ∃ v, normalizeResult f t ⟨some (d :: rest)⟩ = .ok v ∧
      (v.is_ai_generated = true ↔ score > t) ∧
      (score = t → v.is_ai_generated = false) := by
  refine ⟨_, rfl, ?_, ?_⟩
  · simp [normalizeResult, extract_score, hs]
  · intro he
    simp [normalizeResult, extract_score, hs, he]

/-- Witness for C1 at the spec's boundary example: score 0.02 with
threshold 0.016 is flagged; score equal to the threshold is not flagged. -/
theorem C1_verdict_strict_inequality_witness :
    (∃ v, normalizeResult "img.jpg" (16/1000) ⟨some [⟨some (1/50), none⟩]⟩ = .ok v ∧
      v.is_ai_generated = true) ∧
    ∃ v, normalizeResult "img.jpg" (1/50) ⟨some [⟨some (1/50), none⟩]⟩ = .ok v ∧
      v.is_ai_generated = false := by
  constructor
  · obtain ⟨v, hv, hiff, -⟩ :=
      C1_verdict_strict_inequality "img.jpg" (16/1000) (1/50) ⟨some (1/50), none⟩ []
        (by norm_num) (by norm_num) rfl
    exact ⟨v, hv, hiff.mpr (by norm_num)⟩
  · obtain ⟨v, hv, -, heq⟩ :=
      C1_verdict_strict_inequality "img.jpg" (1/50) (1/50) ⟨some (1/50), none⟩ []
        (by norm_num) (by norm_num) rfl
    exact ⟨v, hv, heq rfl⟩

/-- C4: a response with no `data` key, or with an empty `data` list, fails
with the schema error instead of producing a default verdict, while a
present, non-empty container always yields a verdict (even with all inner
fields absent — the low-confidence case). -/
theorem C4_schema_error_on_missing_container (f : String) (t : ℚ) (r : ApiResult) :
    ((r.data = none ∨ r.data = some []) →
      normalizeResult f t r = .error .schemaMissing) ∧
    ∀ d rest, r.data = some (d :: rest) → ∃ v, normalizeResult f t r = .ok v := by
  obtain ⟨_ | (_ | ⟨d, rest⟩)⟩ := r
  · exact ⟨fun _ => rfl, by simp⟩
  · exact ⟨fun _ => rfl, by simp⟩
  · refine ⟨?_, fun d' rest' _ => ⟨_, rfl⟩⟩
    rintro (h | h) <;> simp at h

/-- Witness for C4: the missing-container and empty-container environments
fail with the schema error; a container whose entry has no fields succeeds. -/
theorem C4_schema_error_on_missing_container_witness :
    normalizeResult "img.jpg" (16/1000) ⟨none⟩ = .error .schemaMissing ∧
    normalizeResult "img.jpg" (16/1000) ⟨some []⟩ = .error .schemaMissing ∧
    ∃ v, normalizeResult "img.jpg" (16/1000) ⟨some [⟨none, none⟩]⟩ = .ok v :=
  ⟨(C4_schema_error_on_missing_container "img.jpg" (16/1000) ⟨none⟩).1 (Or.inl rfl),
   (C4_schema_error_on_missing_container "img.jpg" (16/1000) ⟨some []⟩).1 (Or.inr rfl),
   (C4_schema_error_on_missing_container "img.jpg" (16/1000) ⟨some [⟨none, none⟩]⟩).2
     ⟨none, none⟩ [] rfl⟩

/-- C5: when the result container is present but the score field is absent,
the score defaults to 0 (and an absent source mapping defaults to empty),
the call succeeds, and the verdict is not flagged for any strictly positive
threshold. -/
theorem C5_absent_score_defaults (f : String) (t : ℚ) (d : DetectionData)
    (rest : List DetectionData) (hscore : d.is_ai_generated = none) (ht : 0 < t) :
    extract_score d = 0 ∧
    (d.possible_sources = none → extract_sources d = []) ∧
    ∃ v, normalizeResult f t ⟨some (d :: rest)⟩ = .ok v ∧
      v.is_ai_generated = false ∧ v.confidence = 0 ∧ v.confidence_score = 0 ∧
      (d.possible_sources = none → v.top_sources = []) := by
  have h0 : extract_score d = 0 := by simp [extract_score, hscore]
  refine ⟨h0, fun hp => by simp [extract_sources, hp], _, rfl, ?_, ?_, ?_, ?_⟩
  · simp [normalizeResult, h0, not_lt.mpr ht.le]
  · simp [normalizeResult, h0, pyRound_zero]
  · simp [normalizeResult, h0, pyRound_zero]
  · intro hp
    simp [normalizeResult, extract_sources, hp, top_sources, sortSources]

/-- Witness for C5 at the default threshold. -/
theorem C5_absent_score_defaults_witness :
    extract_score ⟨none, none⟩ = 0 ∧
    ∃ v, normalizeResult "img.jpg" (16/1000) ⟨some [⟨none, none⟩]⟩ = .ok v ∧
      v.is_ai_generated = false ∧ v.top_sources = [] := by
  obtain ⟨h0, hsrc, v, hv, hflag, -, -, htop⟩ :=
    C5_absent_score_defaults "img.jpg" (16/1000) ⟨none, none⟩ [] rfl (by norm_num)
  exact ⟨h0, v, hv, hflag, htop rfl⟩

/-- C8: in every successful response, `confidence` is `round(score*100, 2)`
and `confidence_score` is `round(score, 3)` under one fixed, deterministic
rounding rule (`pyRound`, round-half-to-even on the exact value). -/
theorem C8_rounding (f : String) (t score : ℚ) (d : DetectionData)
    (rest : List DetectionData) (hs : d.is_ai_generated = some score) :
    ∃ v, normalizeResult f t ⟨some (d :: rest)⟩ = .ok v ∧
      v.confidence = pyRound (score * 100) 2 ∧
      v.confidence_score = pyRound score 3 := by
  refine ⟨_, rfl, ?_, ?_⟩ <;> simp [normalizeResult, extract_score, hs]

/-- Witness for C8 at score 0.02: confidence 2.0 (percent), rounded score
0.02. -/
theorem C8_rounding_witness :
    ∃ v, normalizeResult "img.jpg" (16/1000) ⟨some [⟨some (1/50), none⟩]⟩ = .ok v ∧
      v.confidence = 2 ∧ v.confidence_score = 1/50 := by
  obtain ⟨v, hv, hc, hcs⟩ :=
    C8_rounding "img.jpg" (16/1000) (1/50) ⟨some (1/50), none⟩ [] rfl
  refine ⟨v, hv, ?_, ?_⟩
  · rw [hc]
    norm_num [pyRound, roundHalfEven]
  · rw [hcs]
    norm_num [pyRound, roundHalfEven]

/-- C6: `top_sources` is the first three entries of the weight-descending
stable sort of the source mapping: the sort is a permutation, is sorted by
descending weight, keeps equal-weight entries in their original enumeration
order, and for fewer than three sources everything is returned in that
order; on the spec's example the ranking is exactly a, b, c. -/
theorem C6_top_sources_ranking (ps : List (String × ℚ)) :
    top_sources ps = (sortSources ps).take 3 ∧
    (sortSources ps).Perm ps ∧
    List.Sorted wtGE (sortSources ps) ∧
    (∀ w : ℚ, (sortSources ps).filter (fun q => decide (q.2 = w)) =
      ps.filter (fun q => decide (q.2 = w))) ∧
    (top_sources ps).length = min 3 ps.length ∧
    (ps.length ≤ 3 → top_sources ps = sortSources ps) ∧
    top_sources [("a", (1:ℚ)/2), ("b", 3/10), ("c", 1/10), ("d", 1/20)] =
      [("a", (1:ℚ)/2), ("b", 3/10), ("c", 1/10)] := by
  refine ⟨rfl, List.perm_insertionSort wtGE ps, List.sorted_insertionSort wtGE ps,
    sortSources_filter_weight ps, ?_, ?_, ?_⟩
  · rw [top_sources, List.length_take, sortSources, List.length_insertionSort]
  · intro hlen
    rw [top_sources]
    exact List.take_of_length_le (by rw [sortSources, List.length_insertionSort]; exact hlen)
  · norm_num [top_sources, sortSources, List.insertionSort, List.orderedInsert, wtGE]

/-- Witness for C6: a two-source mapping is returned whole, in stable order. -/
theorem C6_top_sources_ranking_witness :
    top_sources [("a", (3:ℚ)/10), ("b", 3/10)] = sortSources [("a", (3:ℚ)/10), ("b", 3/10)] ∧
    (top_sources [("a", (3:ℚ)/10), ("b", 3/10)]).length =
      min 3 [("a", (3:ℚ)/10), ("b", 3/10)].length :=
  ⟨((C6_top_sources_ranking [("a", (3:ℚ)/10), ("b", 3/10)]).2.2.2.2.2.1 (by norm_num)),
   (C6_top_sources_ranking [("a", (3:ℚ)/10), ("b", 3/10)]).2.2.2.2.1⟩

/-- C2: the submission strategy is a pure function of the encoded length
with the inline strategy selected exactly below 180,000 and asset-upload at
or above; inline sends the base64 data-URI with no asset header and no
upload call, asset-upload invokes the uploader exactly once and references
the returned asset id in both body and header. -/
theorem C2_strategy_pure_function (mime b64 : String) (env : Env)
    (url assetId : String) :
    (∀ n : ℕ, chooseStrategy n = .inlineB64 ↔ n < 180000) ∧
    (∀ n : ℕ, chooseStrategy n = .assetUpload ↔ 180000 ≤ n) ∧
    (b64.length < 180000 →
      buildRequest mime b64 env =
        (.ok ⟨"data:" ++ mime ++ ";base64," ++ b64, none⟩, ⟨0, 0, 0⟩)) ∧
    (180000 ≤ b64.length → env.reserve = .ok (url, assetId) → env.transfer = .ok () →
      buildRequest mime b64 env =
        (.ok ⟨"data:" ++ mime ++ ";asset_id," ++ assetId, some assetId⟩, ⟨1, 1, 0⟩)) ∧
    (180000 ≤ b64.length →
      (buildRequest mime b64 env).2 = (upload_asset env).2 ∧
      (upload_asset env).2.reserveCalls = 1) := by
  have hiff : ∀ n : ℕ, chooseStrategy n = .inlineB64 ↔ n < 180000 := by
    intro n
    unfold chooseStrategy
    split <;> simp_all
  have hiff2 : ∀ n : ℕ, chooseStrategy n = .assetUpload ↔ 180000 ≤ n := by
    intro n
    unfold chooseStrategy
    split <;> simp_all
  refine ⟨hiff, hiff2, ?_, ?_, ?_⟩
  · intro hlt
    unfold buildRequest
    rw [(hiff _).mpr hlt]
  · intro hge hr ht
    unfold buildRequest
    rw [(hiff2 _).mpr hge]
    unfold upload_asset
    rw [hr, ht]
  · intro hge
    unfold buildRequest
    rw [(hiff2 _).mpr hge]
    unfold upload_asset
    rcases env.reserve with m | ⟨u, a⟩
    · exact ⟨rfl, rfl⟩
    · rcases env.transfer with m | uu <;> exact ⟨rfl, rfl⟩

/-- Witness for C2 at the size boundary: a 3-character payload goes inline
with no upload call; a 180,000-character payload goes through asset upload
exactly once, with the asset id in body and header. -/
theorem C2_strategy_pure_function_witness :
    buildRequest "image/png" "abc" envIdle =
      (.ok ⟨"data:image/png;base64,abc", none⟩, ⟨0, 0, 0⟩) ∧
    buildRequest "image/png" bigB64 envIdle =
      (.ok ⟨"data:image/png;asset_id,AID", some "AID"⟩, ⟨1, 1, 0⟩) :=
  ⟨(C2_strategy_pure_function "image/png" "abc" envIdle "u" "AID").2.2.1 (by decide),
   (C2_strategy_pure_function "image/png" bigB64 envIdle "u" "AID").2.2.2.1
     (by rw [bigB64_length]) rfl rfl⟩

/-- C10: the default threshold of the route signature is 0.016, lies in
[0,1], so a call that leaves the threshold at its default can never fail
threshold validation. -/
theorem C10_default_threshold_valid :
    defaultThreshold = 16/1000 ∧
    thresholdOk defaultThreshold = true ∧
    ∀ env f b, (detect_deepfake env f defaultThreshold b).1 ≠
      Except.error DetectError.badThreshold := by
  have h : thresholdOk defaultThreshold = true := by
    norm_num [thresholdOk, defaultThreshold]
  exact ⟨rfl, h, fun env f b => detect_ne_badThreshold env f defaultThreshold b h⟩

/-- Witness for C10: a concrete default-threshold call does not fail
threshold validation. -/
theorem C10_default_threshold_valid_witness :
    (detect_deepfake envIdle "img.jpg" defaultThreshold "abc").1 ≠
      Except.error DetectError.badThreshold :=
  C10_default_threshold_valid.2.2 envIdle "img.jpg" "abc"

/-- C9: on the asset-upload path, a failure of either upload phase surfaces
as that phase's upload error and the scoring request is never issued; the
scoring call can only have been issued once both phases succeeded. -/
theorem C9_upload_failure_blocks_scoring (env : Env) (f : String) (t : ℚ)
    (b : String) (hbig : 180000 ≤ b.length) (ht : thresholdOk t = true)
    (hext : extOk f = true) (hkey : env.apiKeySet = true) :
    (∀ m, env.reserve = .error m →
      (detect_deepfake env f t b).1 = .error (.uploadReserveFailed m) ∧
      (detect_deepfake env f t b).2.scoringCalls = 0) ∧
    (∀ url aid m, env.reserve = .ok (url, aid) → env.transfer = .error m →
      (detect_deepfake env f t b).1 = .error (.uploadTransferFailed m) ∧
      (detect_deepfake env f t b).2.scoringCalls = 0) ∧
    ((detect_deepfake env f t b).2.scoringCalls = 1 →
      (∃ x, env.reserve = .ok x) ∧ env.transfer = .ok ()) := by
  have hstrat : chooseStrategy b.length = .assetUpload := by
    unfold chooseStrategy
    rw [if_neg (not_lt.mpr hbig)]
  refine ⟨?_, ?_, ?_⟩
  · intro m hm
    constructor <;>
      simp [detect_deepfake, ht, hext, hkey, buildRequest, hstrat, upload_asset, hm]
  · intro url aid m hr htr
    constructor <;>
      simp [detect_deepfake, ht, hext, hkey, buildRequest, hstrat, upload_asset, hr, htr]
  · intro hcount
    rcases hr : env.reserve with m | ⟨u, a⟩
    · simp [detect_deepfake, ht, hext, hkey, buildRequest, hstrat, upload_asset, hr]
        at hcount
    · rcases htr : env.transfer with m | ⟨⟩
      · simp [detect_deepfake, ht, hext, hkey, buildRequest, hstrat, upload_asset, hr, htr]
          at hcount
      · exact ⟨⟨(u, a), rfl⟩, rfl⟩

/-- Witness for C9: with a failing reservation call and an oversized
payload, the flow fails with the reservation upload error and issues no
scoring call. -/
theorem C9_upload_failure_blocks_scoring_witness :
    (detect_deepfake envReserveBoom "a.png" (16/1000) bigB64).1 =
      .error (.uploadReserveFailed "boom") ∧
    (detect_deepfake envReserveBoom "a.png" (16/1000) bigB64).2.scoringCalls = 0 :=
  (C9_upload_failure_blocks_scoring envReserveBoom "a.png" (16/1000) bigB64
    (by rw [bigB64_length]) (by norm_num [thresholdOk]) (by decide) rfl).1 "boom" rfl

/-- C3 (code-bug exhibit): both validation failures are raised as 400
`HTTPException`s at lines 82 and 90, but the catch-all `except` block at
line 197 catches them and re-raises `HTTPException(500, str(e))`, so the
caller observes HTTP **500**, not a client error; the detail string still
identifies the violated constraint, and no network call is attempted. -/
theorem C3_validation_rewrapped_as_500 :
    detectHandler envIdle "image.jpg" (3/2) "abc" =
      .error (500, "400: Threshold must be between 0 and 1") ∧
    (detect_deepfake envIdle "image.jpg" (3/2) "abc").2.total = 0 ∧
    detectHandler envIdle "image.gif" (16/1000) "abc" =
      .error (500, "400: Invalid file type. Only jpg, jpeg, and png are supported.") ∧
    (detect_deepfake envIdle "image.gif" (16/1000) "abc").2.total = 0 := by
  have hth : thresholdOk (3/2) = false := by norm_num [thresholdOk]
  have hth2 : thresholdOk (16/1000) = true := by norm_num [thresholdOk]
  have hext : extOk "image.gif" = false := by decide
  refine ⟨?_, ?_, ?_, ?_⟩ <;>
    simp [detectHandler, detect_deepfake, hth, hth2, hext, strOfError, Calls.total]

/-- If the flow fails, the handler of lines 197-199 reports HTTP 500 with
the stringified exception as detail. -/
theorem detectHandler_of_error (env : Env) (f : String) (t : ℚ) (b : String)
    (e : DetectError) (h : (detect_deepfake env f t b).1 = .error e) :
    detectHandler env f t b = .error (500, strOfError e) := by
  simp [detectHandler, h]

/-- Outcome of the flow when the transfer `PUT` of the asset path fails. -/
theorem detect_asset_transfer_error (env : Env) (f : String) (t : ℚ)
    (b : String) (hbig : 180000 ≤ b.length) (ht : thresholdOk t = true)
    (hext : extOk f = true) (hkey : env.apiKeySet = true)
    (url aid m : String) (hr : env.reserve = .ok (url, aid))
    (htr : env.transfer = .error m) :
    detect_deepfake env f t b = (.error (.uploadTransferFailed m), ⟨1, 1, 0⟩) := by
  have hstrat : chooseStrategy b.length = .assetUpload := by
    unfold chooseStrategy
    rw [if_neg (not_lt.mpr hbig)]
  simp [detect_deepfake, ht, hext, hkey, buildRequest, hstrat, upload_asset, hr, htr]

/-- Outcome of the flow when the asset path succeeds but the scoring `POST`
fails at the transport level. -/
theorem detect_scoring_transport_error (env : Env) (f : String) (t : ℚ)
    (b : String) (hbig : 180000 ≤ b.length) (ht : thresholdOk t = true)
    (hext : extOk f = true) (hkey : env.apiKeySet = true)
    (url aid m : String) (hr : env.reserve = .ok (url, aid))
    (htr : env.transfer = .ok ()) (hsc : env.scoring = .error m) :
    detect_deepfake env f t b = (.error (.scoringTransportFailed m), ⟨1, 1, 1⟩) := by
  have hstrat : chooseStrategy b.length = .assetUpload := by
    unfold chooseStrategy
    rw [if_neg (not_lt.mpr hbig)]
  simp [detect_deepfake, ht, hext, hkey, buildRequest, hstrat, upload_asset, hr, htr,
    hsc, Calls.addScoring]

/-- C7 counterexample: an asset-transfer failure (an upload error) and a
scoring transport failure carrying the same exception message are distinct
error kinds inside the flow, yet the caller-visible responses are
identical — both HTTP 500 with the same detail — so the kinds are not
distinguishable by the caller. -/
theorem C7_kinds_not_distinguishable :
    (detect_deepfake envTransferBoom "a.png" (16/1000) bigB64).1 =
      .error (.uploadTransferFailed "boom") ∧
    (detect_deepfake envScoringBoom "a.png" (16/1000) bigB64).1 =
      .error (.scoringTransportFailed "boom") ∧
    DetectError.uploadTransferFailed "boom" ≠
      DetectError.scoringTransportFailed "boom" ∧
    detectHandler envTransferBoom "a.png" (16/1000) bigB64 =
      detectHandler envScoringBoom "a.png" (16/1000) bigB64 := by
  have hth : thresholdOk (16/1000) = true := by norm_num [thresholdOk]
  have hext : extOk "a.png" = true := by decide
  have hbig : (180000 : ℕ) ≤ bigB64.length := by rw [bigB64_length]
  have h1 : (detect_deepfake envTransferBoom "a.png" (16/1000) bigB64).1 =
      .error (.uploadTransferFailed "boom") := by
    rw [detect_asset_transfer_error envTransferBoom "a.png" (16/1000) bigB64
      hbig hth hext rfl "u" "AID" "boom" rfl rfl]
  have h2 : (detect_deepfake envScoringBoom "a.png" (16/1000) bigB64).1 =
      .error (.scoringTransportFailed "boom") := by
    rw [detect_scoring_transport_error envScoringBoom "a.png" (16/1000) bigB64
      hbig hth hext rfl "u" "AID" "boom" rfl rfl rfl]
  refine ⟨h1, h2, by simp, ?_⟩
  rw [detectHandler_of_error _ _ _ _ _ h1, detectHandler_of_error _ _ _ _ _ h2]
  simp [strOfError]

/-- C7 amended: every failure of the flow propagates to the caller — none is
silently swallowed — as an HTTP 500 response whose detail is the stringified
underlying exception; successes pass through unchanged. (The four spec
error kinds exist as distinct raise sites inside the flow, but the caller
only receives the 500/detail pair.) -/
theorem C7_amended_errors_propagate (env : Env) (f : String) (t : ℚ) (b : String) :
    (∀ e, (detect_deepfake env f t b).1 = .error e →
      detectHandler env f t b = .error (500, strOfError e)) ∧
    ∀ v, (detect_deepfake env f t b).1 = .ok v →
      detectHandler env f t b = .ok v := by
  constructor <;> intro x hx <;> simp [detectHandler, hx]

/-- Witness for the amended C7: a failed validation propagates as the 500
response carrying its stringified exception. -/
theorem C7_amended_errors_propagate_witness :
    detectHandler envIdle "img.jpg" (3/2) "abc" =
      .error (500, strOfError .badThreshold) := by
  apply (C7_amended_errors_propagate envIdle "img.jpg" (3/2) "abc").1
  have hth : thresholdOk (3/2) = false := by norm_num [thresholdOk]
  simp [detect_deepfake, hth]
